import Mathlib

set_option maxRecDepth 100000

/-!
Verification of the zax incremental check runner against its design spec.

The TypeScript sources are shallowly embedded: strings are modelled at the
level of their character lists, machine integers as `Nat` with explicit
reduction modulo 2 ^ 64 where the hash arithmetic overflows, the filesystem
and the OS (file existence, symlink resolution, process liveness) as explicit
parameters, and fallible steps as `Option`.
-/

namespace Zax

/-! ## 64-bit word arithmetic (Nat, reduced mod 2^64) -/

/-- 2 ^ 64, the modulus for 64-bit words. -/
def w64Mod : Nat := 18446744073709551616

/-- 64-bit addition. -/
def addw (a b : Nat) : Nat := (a + b) % w64Mod

/-- 64-bit xor (no reduction needed: xor of words below 2 ^ 64 stays below). -/
def xorw (a b : Nat) : Nat := Nat.xor a b

/-- Rotate a 64-bit word right by `n` bits (for `x < 2 ^ 64`). -/
def rotr64 (n x : Nat) : Nat := (x / 2 ^ n) + (x % 2 ^ n) * 2 ^ (64 - n)

/-! ## BLAKE2b-256

Faithful model of the `Bun.CryptoHasher("blake2b256")` primitive used by
`computeWorkspaceId` (src/unnamed/part_011): BLAKE2b, RFC 7693, with a
32-byte digest and no key. -/

/-- The BLAKE2b initialization vector (the SHA-512 IVs, written in
decimal; in hex: 6a09e667f3bcc908, bb67ae8584caa73b, 3c6ef372fe94f82b,
a54ff53a5f1d36f1, 510e527fade682d1, 9b05688c2b3e6c1f, 1f83d9abfb41bd6b,
5be0cd19137e2179). -/
def blakeIV : List Nat :=
  [7640891576956012808, 13503953896175478587,
   4354685564936845355, 11912009170470909681,
   5840696475078001361, 11170449401992604703,
   2270897969802886507, 6620516959819538809]

/-- The BLAKE2b message schedule (rounds 10 and 11 reuse rows 0 and 1). -/
def blakeSigma : List (List Nat) :=
  [[0, 1, 2, 3, 4, 5, 6, 7, 8, 9, 10, 11, 12, 13, 14, 15],
   [14, 10, 4, 8, 9, 15, 13, 6, 1, 12, 0, 2, 11, 7, 5, 3],
   [11, 8, 12, 0, 5, 2, 15, 13, 10, 14, 3, 6, 7, 1, 9, 4],
   [7, 9, 3, 1, 13, 12, 11, 14, 2, 6, 5, 10, 4, 0, 15, 8],
   [9, 0, 5, 7, 2, 4, 10, 15, 14, 1, 11, 12, 6, 8, 3, 13],
   [2, 12, 6, 10, 0, 11, 8, 3, 4, 13, 7, 5, 15, 14, 1, 9],
   [12, 5, 1, 15, 14, 13, 4, 10, 0, 7, 6, 3, 9, 2, 8, 11],
   [13, 11, 7, 14, 12, 1, 3, 9, 5, 0, 15, 4, 8, 6, 2, 10],
   [6, 15, 14, 9, 11, 3, 0, 8, 12, 2, 13, 7, 1, 4, 10, 5],
   [10, 2, 8, 4, 7, 6, 1, 5, 15, 11, 9, 14, 3, 12, 13, 0]]

/-- The BLAKE2b G mixing function applied to working vector `v` at
indices `a b c d` with message words `x y`. -/
def gMix (v : List Nat) (a b c d : Nat) (x y : Nat) : List Nat :=
  let va1 := addw (addw (v.getD a 0) (v.getD b 0)) x
  let vd1 := rotr64 32 (xorw (v.getD d 0) va1)
  let vc1 := addw (v.getD c 0) vd1
  let vb1 := rotr64 24 (xorw (v.getD b 0) vc1)
  let va2 := addw (addw va1 vb1) y
  let vd2 := rotr64 16 (xorw vd1 va2)
  let vc2 := addw vc1 vd2
  let vb2 := rotr64 63 (xorw vb1 vc2)
  ((((v.set a va2).set b vb2).set c vc2).set d vd2)

/-- One BLAKE2b round over working vector `v` with message words `m` and
schedule row `s`. -/
def blakeRound (m : List Nat) (v : List Nat) (s : List Nat) : List Nat :=
  let mw := fun i => m.getD (s.getD i 0) 0
  let v1 := gMix v 0 4 8 12 (mw 0) (mw 1)
  let v2 := gMix v1 1 5 9 13 (mw 2) (mw 3)
  let v3 := gMix v2 2 6 10 14 (mw 4) (mw 5)
  let v4 := gMix v3 3 7 11 15 (mw 6) (mw 7)
  let v5 := gMix v4 0 5 10 15 (mw 8) (mw 9)
  let v6 := gMix v5 1 6 11 12 (mw 10) (mw 11)
  let v7 := gMix v6 2 7 8 13 (mw 12) (mw 13)
  gMix v7 3 4 9 14 (mw 14) (mw 15)

/-- Little-endian 64-bit word read from a byte list (short lists are
implicitly zero-padded, matching BLAKE2b block padding). -/
def leWord (bs : List Nat) : Nat := bs.foldr (fun b acc => b + 256 * acc) 0

/-- The sixteen little-endian message words of one (up to 128-byte) block. -/
def blockWords (block : List Nat) : List Nat :=
  (List.range 16).map (fun i => leWord ((block.drop (8 * i)).take 8))

/-- The BLAKE2b compression function: chaining value `h`, message words `m`,
byte counter `t`, finalization flag `last`. -/
def blakeCompress (h : List Nat) (m : List Nat) (t : Nat) (last : Bool) : List Nat :=
  let v0 := h ++ blakeIV
  let v1 := v0.set 12 (xorw (v0.getD 12 0) (t % w64Mod))
  let v2 := v1.set 13 (xorw (v1.getD 13 0) ((t / w64Mod) % w64Mod))
  let v3 := if last then v2.set 14 (xorw (v2.getD 14 0) (w64Mod - 1)) else v2
  let vf := (List.range 12).foldl (fun v r => blakeRound m v (blakeSigma.getD (r % 10) [])) v3
  (List.range 8).map (fun i => xorw (h.getD i 0) (xorw (vf.getD i 0) (vf.getD (i + 8) 0)))

/-- Process the message 128 bytes at a time; `fuel` bounds the number of
non-final blocks and is chosen large enough by the caller. -/
def blakeBlocks : Nat → List Nat → List Nat → Nat → List Nat
  | 0, h, msg, processed =>
    blakeCompress h (blockWords msg) (processed + msg.length) true
  | fuel + 1, h, msg, processed =>
    if msg.length ≤ 128 then
      blakeCompress h (blockWords msg) (processed + msg.length) true
    else
      blakeBlocks fuel (blakeCompress h (blockWords (msg.take 128)) (processed + 128) false)
        (msg.drop 128) (processed + 128)

/-- `n` little-endian bytes of a word. -/
def toLEBytes : Nat → Nat → List Nat
  | 0, _ => []
  | n + 1, x => (x % 256) :: toLEBytes n (x / 256)

/-- BLAKE2b-256 of a byte list: the first 32 bytes (words 0-3,
little-endian) of the final state.  The parameter-block word for digest
length 32, fanout 1, depth 1 is xored into `h0`. -/
def blake2b256Bytes (msg : List Nat) : List Nat :=
  let h0 := xorw (blakeIV.getD 0 0) 0x01010020 :: blakeIV.drop 1
  let hf := blakeBlocks (msg.length / 128 + 1) h0 msg 0
  toLEBytes 8 (hf.getD 0 0) ++ toLEBytes 8 (hf.getD 1 0)
    ++ toLEBytes 8 (hf.getD 2 0) ++ toLEBytes 8 (hf.getD 3 0)

/-! ## Bytes, hex, and UTF-8 -/

/-- The lowercase hex digit for a value below 16 (0-9 then a-f). -/
def hexDigitChar (n : Nat) : Char :=
  if n < 10 then Char.ofNat ('0'.toNat + n) else Char.ofNat ('a'.toNat + n - 10)

/-- The two lowercase hex digits of a byte. -/
def hexPairOfByte (b : Nat) : List Char := [hexDigitChar (b / 16 % 16), hexDigitChar (b % 16)]

/-- Lowercase hex encoding of a byte list. -/
def bytesToHexStr (bs : List Nat) : String := ⟨bs.flatMap hexPairOfByte⟩

/-- UTF-8 encoding of one code point. -/
def utf8EncodeChar (n : Nat) : List Nat :=
  if n < 0x80 then [n]
  else if n < 0x800 then
    [0xC0 + n / 64, 0x80 + n % 64]
  else if n < 0x10000 then
    [0xE0 + n / 4096, 0x80 + n / 64 % 64, 0x80 + n % 64]
  else
    [0xF0 + n / 262144, 0x80 + n / 4096 % 64, 0x80 + n / 64 % 64, 0x80 + n % 64]

/-- UTF-8 bytes of a string. -/
def utf8Bytes (s : String) : List Nat := s.data.flatMap (fun c => utf8EncodeChar c.toNat)

/-! ## Node path.resolve (single-argument form)

`computeWorkspaceId` (src/unnamed/part_011) begins with
`const absolutePath = resolve(cwd)`.  Node resolves a path lexically
against the process working directory `processCwd`: it absolutizes and
normalizes `.` / `..` / empty segments, without consulting the filesystem
(no symlink resolution). -/

/-- Whether a path is absolute (starts with a slash). -/
def isAbsolutePath (p : String) : Bool :=
  match p.data with
  | '/' :: _ => true
  | _ => false

/-- Split a character list on `/` (list-level `String.split`). -/
def splitSlashAux : List Char → List Char → List (List Char)
  | [], cur => [cur.reverse]
  | c :: rest, cur =>
    if c = '/' then cur.reverse :: splitSlashAux rest []
    else splitSlashAux rest (c :: cur)

/-- The `/`-separated segments of a path. -/
def pathSegments (s : String) : List (List Char) := splitSlashAux s.data []

/-- Lexical normalization of the segments of an absolute path:  empty and
`.` segments vanish; `..` pops the previous segment. -/
def normSegments (segs : List (List Char)) : List (List Char) :=
  segs.foldl
    (fun acc s =>
      if s = [] ∨ s = ['.'] then acc
      else if s = ['.', '.'] then acc.dropLast
      else acc ++ [s])
    []

/-- Interleave path segments with `/`. -/
def joinSegments : List (List Char) → List Char
  | [] => []
  | [s] => s
  | s :: rest => s ++ '/' :: joinSegments rest

/-- `path.resolve(p)` as performed by Node against working directory
`processCwd` (assumed absolute). -/
def resolvePath (processCwd p : String) : String :=
  let full := if isAbsolutePath p then p else processCwd ++ "/" ++ p
  ⟨'/' :: joinSegments (normSegments (pathSegments full))⟩

/-- `s.slice(0, n)` on a JavaScript string, at character granularity. -/
def strTake (s : String) (n : Nat) : String := ⟨s.data.take n⟩

/-! ## computeWorkspaceId (src/unnamed/part_011, lines 26-31)

```
export function computeWorkspaceId(cwd: string): string {
  const absolutePath = resolve(cwd);
  const hasher = new Bun.CryptoHasher("blake2b256");
  hasher.update(absolutePath);
  return hasher.digest("hex").slice(0, WORKSPACE_ID_LENGTH);
}
```
with `WORKSPACE_ID_LENGTH = 16`.  The process working directory is an
explicit parameter. -/

def computeWorkspaceId (processCwd : String) (cwd : String) : String :=
  let absolutePath := resolvePath processCwd cwd
  strTake (bytesToHexStr (blake2b256Bytes (utf8Bytes absolutePath))) 16

/-- Models an OS in which `/link` is a symbolic link to the directory
`/real`: `realpath` maps both names to `/real` and is the identity on every
other (already canonical) absolute path.  Used to witness that
`computeWorkspaceId` does not resolve symlinks. -/
def symlinkedRealpath (p : String) : String := if p = "/link" then "/real" else p

/-! ## Path normalization (src/packages/engine/src/lib/normalize.ts)

Strings are handled at character granularity; the JavaScript string methods
`endsWith`, `startsWith` and `slice` are rendered on `String.data`. -/

/-- JavaScript truthiness of an optional string: `undefined` and the empty
string are falsy. -/
def jsTruthyStr : Option String → Bool
  | none => false
  | some s => !s.data.isEmpty

/-- `workspaceRoot.endsWith("/")`. -/
def endsWithSlash (s : String) : Bool := s.data.getLast? == some '/'

/-- The `prefix` local of `stripWorkspacePrefix`: the workspace root with a
trailing slash appended when absent. -/
def rootWithSlash (workspaceRoot : String) : String :=
  if endsWithSlash workspaceRoot then workspaceRoot else workspaceRoot ++ "/"

/-- normalize.ts lines 4-7:

```
export function stripWorkspacePrefix(path: string, workspaceRoot: string): string {
  const prefix = workspaceRoot.endsWith("/") ? workspaceRoot : `$\x7bworkspaceRoot\x7d/`;
  return path.startsWith(prefix) ? path.slice(prefix.length) : path;
}
```
-/
def stripWorkspacePrefix (path workspaceRoot : String) : String :=
  if (rootWithSlash workspaceRoot).data.isPrefixOf path.data then
    ⟨path.data.drop (rootWithSlash workspaceRoot).data.length⟩
  else path

/-- A filesystem operation performed while rewriting a tool output file
(content is irrelevant to the claims and omitted). -/
inductive FsOp
  | writeFile (path : String)
  | rename (src dst : String)
deriving DecidableEq

/-- normalize.ts lines 10-14 (`atomicWriteFile`): write a sibling `.tmp`
file, then rename it over the original. -/
def atomicWriteFileOps (filePath : String) : List FsOp :=
  [FsOp.writeFile (filePath ++ ".tmp"), FsOp.rename (filePath ++ ".tmp") filePath]

/-- One element of the parsed eslint JSON array; only the `filePath` field is
consumed. -/
structure EslintFileEntry where
  filePath : Option String
deriving DecidableEq

/-- The content transformation of `normalizeEslintPaths` (normalize.ts lines
16-25): each truthy `filePath` is stripped of the workspace root. -/
def normalizeEslintEntries (results : List EslintFileEntry) (workspaceRoot : String) :
    List EslintFileEntry :=
  results.map fun r =>
    if jsTruthyStr r.filePath then ⟨some ( stripWorkspacePrefix (r.filePath.getD "") workspaceRoot)⟩
    else r

/-- One element of `testResults` in the parsed vitest JSON; only `name` is
consumed. -/
structure VitestTestResult where
  name : Option String
deriving DecidableEq

/-- The parsed vitest JSON output; `testResults` may be absent. -/
structure VitestOutput where
  testResults : Option (List VitestTestResult)
deriving DecidableEq

/-- The content transformation of `normalizeVitestPaths` (normalize.ts lines
27-36): each truthy `testResults[].name` is stripped of the workspace root;
an absent `testResults` field is written back unchanged. -/
def normalizeVitestOutput (out : VitestOutput) (workspaceRoot : String) : VitestOutput :=
  match out.testResults with
  | none => out
  | some l =>
    ⟨some (l.map fun r =>
      if jsTruthyStr r.name then ⟨some ( stripWorkspacePrefix (r.name.getD "") workspaceRoot)⟩
      else r)⟩

/-! ## Package-manager detection (src/unnamed/part_004, pkg-manager module) -/

/-- The package managers. -/
inductive PackageManager
  | npm | pnpm | yarn | bun
deriving DecidableEq

/-- Lockfiles in priority order (pkg-manager lines 23-28). -/
def LOCKFILE_PRIORITY : List (String × PackageManager) :=
  [("bun.lockb", .bun), ("pnpm-lock.yaml", .pnpm),
   ("yarn.lock", .yarn), ("package-lock.json", .npm)]

/-- pkg-manager lines 44-55: walk `LOCKFILE_PRIORITY` once and return the
manager of the first lockfile present in the workspace root (modelled as the
list of file names the root contains); fall back to npm.  -/
def detectPackageManager (rootFiles : List String) : PackageManager :=
  match LOCKFILE_PRIORITY.find? (fun e => rootFiles.contains e.1) with
  | some e => e.2
  | none => .npm

/-! ## Substring search (JavaScript `String.prototype.includes`) -/

/-- Whether `needle` occurs as a contiguous run inside `hay`. -/
def listContainsSub : List Char → List Char → Bool
  | hay, needle =>
    if needle.isPrefixOf hay then true
    else
      match hay with
      | [] => false
      | _ :: t => listContainsSub t needle

/-- `hay.includes(needle)`. -/
def strIncludes (hay needle : String) : Bool := listContainsSub hay.data needle.data

/-! ## Tool runner and check pipeline (src/packages/engine/src/lib/check.ts) -/

/-- The classified reasons for skipping the linter (check.ts line 47). -/
inductive EslintSkipReason
  | notFound | noConfig | failed | timeout
deriving DecidableEq

/-- The outcome triple of `spawnEslint` (check.ts line 49). -/
structure EslintResult where
  skipped : Bool
  skipReason : Option EslintSkipReason
  outputPath : Option String
deriving DecidableEq

/-- check.ts lines 172-178 (`detectEslintSkipReason`);  `existsSync` is the
explicit parameter `fsExists`. -/
def detectEslintSkipReason (fsExists : String → Bool) (exitCode : Int)
    (stderr : String) (outputFile : String) : Option EslintSkipReason :=
  if strIncludes stderr "command not found" || strIncludes stderr "npx: command not found" then
    some .notFound
  else if strIncludes stderr "eslint: not found"
      || strIncludes stderr "eslint: command not found" then
    some .notFound
  else if strIncludes stderr "No ESLint configuration"
      || strIncludes stderr "eslint.config" then
    some .noConfig
  else if exitCode != 0 && !fsExists outputFile then
    some .failed
  else
    none

/-- check.ts lines 148-170 (`spawnEslint`), after the subprocess finished:
a timed-out run is skipped with reason timeout, otherwise the skip
classification decides; a non-skipped run carries its output path. -/
def spawnEslintResult (timedOut : Bool) (fsExists : String → Bool) (exitCode : Int)
    (stderr : String) (outputFile : String) : EslintResult :=
  if timedOut then ⟨true, some .timeout, none⟩
  else
    match detectEslintSkipReason fsExists exitCode stderr outputFile with
    | some r => ⟨true, some r, none⟩
    | none => ⟨false, none, some outputFile⟩

/-- The two artifact kinds of the artifacts/v1 schema. -/
inductive ArtifactKind
  | TEST_FAILURE | FINDING
deriving DecidableEq

/-- One artifact manifest entry. -/
structure ArtifactRef where
  artifactId : String
  kind : ArtifactKind
  path : String
  hash : String
deriving DecidableEq

/-- check.ts lines 196-206 (`buildArtifactList`, identical copy in the
server module): the vitest TEST_FAILURE entry is placed in the list
unconditionally; the eslint FINDING entry is appended only when the linter
was not skipped and its output path is truthy. -/
def buildArtifactList (runId vitestPath : String) (eslintResult : EslintResult) :
    List ArtifactRef :=
  let vitestRef : ArtifactRef := ⟨runId ++ "-vitest", .TEST_FAILURE, vitestPath, ""⟩
  if !eslintResult.skipped && jsTruthyStr eslintResult.outputPath then
    [vitestRef, ⟨runId ++ "-eslint", .FINDING, eslintResult.outputPath.getD "", ""⟩]
  else
    [vitestRef]

/-- check.ts lines 74-87: vitest is skipped exactly when the run is not a
full run and no test files are affected. -/
def vitestSkippedOf (isFullRun : Bool) (affectedCount : Nat) : Bool :=
  !isFullRun && affectedCount == 0

/-- check.ts line 73: the vitest output path of a run. -/
def vitestPathOf (cacheDir runId : String) : String :=
  cacheDir ++ "/artifacts/" ++ runId ++ "/vitest.json"

/-- check.ts line 101: `executeCheck` hands `vitestPath` to
`ingestArtifacts` unconditionally, independent of whether vitest ran or of
whether the output file exists, so the artifact list of every run is
`buildArtifactList` of that path. -/
def checkManifestArtifacts (cacheDir runId : String) (eslintResult : EslintResult) :
    List ArtifactRef :=
  buildArtifactList runId (vitestPathOf cacheDir runId) eslintResult

/-- check.ts lines 98-100: the eslint output file is normalized only when
the linter was not skipped and reported an output path. -/
def eslintNormalizeInvoked (eslintResult : EslintResult) : Bool :=
  !eslintResult.skipped && jsTruthyStr eslintResult.outputPath

/-! ## Engine HTTP server (src/packages/engine/src/lib/server.ts)

Modelled from the full server module (the revision with rate limiting,
validation helpers and the complete summary, whose `handleCheck` the claims
cite at lines 198-238): the gate sequence of `handleCheck` ahead of
`runCheck`. -/

/-- Membership in the regex character class `[0-9a-f]`. -/
def isHexLowerChar (c : Char) : Bool := c.isDigit || ('a' ≤ c && c ≤ 'f')

/-- server.ts: `WORKSPACE_ID_PATTERN = /^[0-9a-f]\x7b16\x7d$/` and
`isValidWorkspaceId`: exactly 16 characters, each in `[0-9a-f]`. -/
def isValidWorkspaceId (id : String) : Bool :=
  id.data.length == 16 && id.data.all isHexLowerChar

/-- server.ts: `CHECK_RATE_LIMIT_MS = 1000`. -/
def CHECK_RATE_LIMIT_MS : Int := 1000

/-- The parsed body of a POST /check request (`none` models a body that
failed to parse). -/
structure CheckRequestBody where
  workspace_id : String
  workspace_root : String

/-- The observable outcome of `handleCheck` before or at the hand-off to
`runCheck`: the HTTP status, the error body (the value of the `error`
field), and whether `runCheck` was entered.  `runStarted = false` means no
`run_id` was generated and no filesystem effect happened, since run-id
generation and the `artifacts/<run_id>` mkdir are the first actions of
`executeCheck`. -/
structure CheckGateOutcome where
  status : Nat
  errorBody : Option String
  runStarted : Bool
deriving DecidableEq

/-- `handleCheck` (full server module lines 198-238): rate limiting runs
first, then the in-progress 409 gate, then body parsing and validation, and
only then `runCheck`.  `now` and `lastCheckTime` are `Date.now()`
milliseconds; `rootIsExistingDir` models `isValidWorkspaceRoot`;
`checkStatus` abstracts the status produced by the `runCheck` branch. -/
def handleCheck (lastCheckTime now : Int) (checkInProgress : Bool)
    (body : Option CheckRequestBody) (rootIsExistingDir : String → Bool)
    (checkStatus : Nat) : CheckGateOutcome :=
  if now - lastCheckTime < CHECK_RATE_LIMIT_MS then ⟨429, some "rate limited", false⟩
  else if checkInProgress then ⟨409, some "check already in progress", false⟩
  else
    match body with
    | none => ⟨400, some "invalid request body", false⟩
    | some b =>
      if !( isValidWorkspaceId b.workspace_id) then
        ⟨400, some "invalid workspace_id format", false⟩
      else if !(rootIsExistingDir b.workspace_root) then
        ⟨400, some "workspace_root must be an existing directory", false⟩
      else ⟨checkStatus, none, true⟩

/-! ## CLI (src/unnamed/part_008, main module of the cli package) -/

/-- The summary fields the CLI exit code consumes. -/
structure CliCheckResult where
  new_test_failures : Nat
  fixed_test_failures : Nat
  new_findings : Nat
  fixed_findings : Nat
deriving DecidableEq

/-- part_008 lines 52-54:

```
export function computeExitCode(result: CheckResult): number {
  return (result.new_test_failures > 0 || result.new_findings > 0) ? 1 : 0;
}
```
-/
def computeExitCode (result : CliCheckResult) : Nat :=
  if result.new_test_failures > 0 ∨ result.new_findings > 0 then 1 else 0

/-! ## Engine lock (lock module of the cli package, embedded in
src/packages/cli/src/lib/args.test.ts lines 116-200) -/

/-- The state of the `engine.lock/` directory: whether it exists and the
content of its `pid` file when present. -/
structure LockState where
  lockDirExists : Bool
  pidFileContent : Option String
deriving DecidableEq

/-- The result of one `attemptLock` (the throwing `error` case of other fs
failures is outside the model: `mkdir` fails only with EEXIST here). -/
inductive LockAttempt
  | acquired | eexist
deriving DecidableEq

/-- lock module lines 159-168 (`attemptLock`): `mkdir` the lock directory
(atomic; fails with EEXIST when present) and write our own PID into it. -/
def attemptLock (myPid : Nat) (st : LockState) : LockState × LockAttempt :=
  if st.lockDirExists then (st, .eexist)
  else (⟨true, some (toString myPid)⟩, .acquired)

/-- `parseInt(readFileSync(pidFile).trim(), 10)` for the non-negative PIDs
the lock writes: leading whitespace-trimmed digits, `none` for NaN. -/
def parsePidInt (s : String) : Option Nat :=
  let ds := (s.data.dropWhile (fun c =>
      c = ' ' ∨ c = '\n' ∨ c = '\t' ∨ c = '\r')).takeWhile Char.isDigit
  if ds.isEmpty then none
  else some (ds.foldl (fun a c => a * 10 + (c.toNat - 48)) 0)

/-- lock module lines 133-156 (`cleanStaleLock`): a missing `pid` file makes
the lock corrupt and it is removed; a readable dead PID (signal-0 check
fails) makes it stale and it is removed; a live or unparsable PID leaves
the lock in place and reports `false`. -/
def cleanStaleLock (alive : Nat → Bool) (st : LockState) : LockState × Bool :=
  match st.pidFileContent with
  | none =>
    if st.lockDirExists then (⟨false, none⟩, true) else (st, false)
  | some s =>
    match parsePidInt s with
    | none => (st, false)
    | some pid =>
      if alive pid then (st, false)
      else (⟨false, none⟩, true)

/-- lock module lines 171-180 (`tryAcquireLock`): attempt once; on EEXIST
clean a stale lock and, only if cleaning succeeded, retry exactly once. -/
def tryAcquireLock (alive : Nat → Bool) (myPid : Nat) (st : LockState) :
    LockState × Bool :=
  let r1 := attemptLock myPid st
  match r1.2 with
  | .acquired => (r1.1, true)
  | .eexist =>
    let r2 := cleanStaleLock alive r1.1
    if r2.2 then
      let r3 := attemptLock myPid r2.1
      (r3.1, r3.2 == .acquired)
    else (r2.1, false)

/-- The number of `attemptLock` calls a `tryAcquireLock` performs (1, or 2
when a stale lock was cleaned). -/
def tryAcquireLockAttempts (alive : Nat → Bool) (myPid : Nat) (st : LockState) : Nat :=
  let r1 := attemptLock myPid st
  match r1.2 with
  | .acquired => 1
  | .eexist => if (cleanStaleLock alive r1.1).2 then 2 else 1

/-! ## Files removed by the system (frame of destructive operations)

Each definition lists the paths unlinked or rmdired by one operation,
read off the source; every other filesystem call of the system creates or
rewrites files but removes none. -/

/-- engine main.ts lines 45-66 (`cleanup`): after stopping the backend, the
`rust.port` file is removed when present. -/
def cleanupRemovals (cacheDir : String) (portFileExists : Bool) : List String :=
  if portFileExists then [cacheDir ++ "/rust.port"] else []

/-- engine main.ts lines 109-112: a stale `zax.sock` is unlinked before the
server binds. -/
def engineStartupRemovals (cacheDir : String) (sockExists : Bool) : List String :=
  if sockExists then [cacheDir ++ "/zax.sock"] else []

/-- cli main module (`ensureEngine`): a present but unconnectable
`zax.sock` is unlinked. -/
def ensureEngineRemovals (cacheDir : String) (sockExists connectOk : Bool) : List String :=
  if sockExists && !connectOk then [cacheDir ++ "/zax.sock"] else []

/-- lock module (`releaseLock`): the `pid` file and the lock directory are
removed (best effort). -/
def releaseLockRemovals (cacheDir : String) : List String :=
  [cacheDir ++ "/engine.lock/pid", cacheDir ++ "/engine.lock"]

/-- lock module (`cleanStaleLock`): the paths it removes in each of its
branches. -/
def cleanStaleLockRemovals (cacheDir : String) (alive : Nat → Bool) (st : LockState) :
    List String :=
  match st.pidFileContent with
  | none => if st.lockDirExists then [cacheDir ++ "/engine.lock"] else []
  | some s =>
    match parsePidInt s with
    | none => []
    | some pid =>
      if alive pid then []
      else [cacheDir ++ "/engine.lock/pid", cacheDir ++ "/engine.lock"]

/-- All paths any operation of the system (check pipeline, engine startup,
engine shutdown cleanup, daemon bring-up) ever removes, for one workspace
with cache directory `cacheDir`, in every reachable combination of
filesystem states. -/
def systemRemovals (cacheDir : String)
    (portFileExists sockExistsStartup sockExistsCli connectOk : Bool)
    (alive : Nat → Bool) (st : LockState) : List String :=
  cleanupRemovals cacheDir portFileExists
    ++ engineStartupRemovals cacheDir sockExistsStartup
    ++ ensureEngineRemovals cacheDir sockExistsCli connectOk
    ++ releaseLockRemovals cacheDir
    ++ cleanStaleLockRemovals cacheDir alive st

/-- `p` lies strictly inside directory `dir`. -/
def pathWithin (dir p : String) : Bool := (dir ++ "/").data.isPrefixOf p.data

/-- `p` lies under `<cacheDir>/artifacts/` (the union over all run ids of
`<cacheDir>/artifacts/<run_id>/`). -/
def underRunArtifacts (cacheDir p : String) : Bool :=
  (cacheDir ++ "/artifacts/").data.isPrefixOf p.data

end Zax

namespace Zax

/-! ## Helper lemmas -/

lemma blakeCompress_length (h m : List Nat) (t : Nat) (last : Bool) :
    (blakeCompress h m t last).length = 8 := by
  simp [blakeCompress]

lemma blakeBlocks_length :
    ∀ (fuel : Nat) (h msg : List Nat) (processed : Nat),
      (blakeBlocks fuel h msg processed).length = 8 := by
  intro fuel
  induction fuel with
  | zero => intro h msg processed; simp [blakeBlocks, blakeCompress_length]
  | succ n ih =>
    intro h msg processed
    simp only [blakeBlocks]
    split
    · exact blakeCompress_length ..
    · exact ih ..

lemma toLEBytes_length : ∀ (n x : Nat), (toLEBytes n x).length = n := by
  intro n
  induction n with
  | zero => intro x; simp [toLEBytes]
  | succ m ih => intro x; simp [toLEBytes, ih]

lemma blake2b256Bytes_length (msg : List Nat) : (blake2b256Bytes msg).length = 32 := by
  simp [blake2b256Bytes, toLEBytes_length]

lemma hexDigitChar_hex {n : Nat} (h : n < 16) : isHexLowerChar (hexDigitChar n) = true := by
  interval_cases n <;> decide

lemma hexPairOfByte_hex (b : Nat) : ∀ c ∈ hexPairOfByte b, isHexLowerChar c = true := by
  intro c hc
  rcases List.mem_pair.mp hc with rfl | rfl
  · exact hexDigitChar_hex (Nat.mod_lt _ (by norm_num))
  · exact hexDigitChar_hex (Nat.mod_lt _ (by norm_num))

lemma bytesToHexStr_length (bs : List Nat) : (bytesToHexStr bs).data.length = 2 * bs.length := by
  show (bs.flatMap hexPairOfByte).length = 2 * bs.length
  induction bs with
  | nil => simp
  | cons b t ih => simp [hexPairOfByte] at ih ⊢; omega

/-! ## C1 theorems (computeWorkspaceId) -/

/-- C1 counterexample: with `/link` a symlink to the directory `/real`
(modelled by `symlinkedRealpath`), the two paths have equal realpaths but
`computeWorkspaceId` gives them different ids, because the source hashes
`resolve(cwd)` (lexical absolutization) rather than the symlink-resolved
realpath.  This refutes, at a concrete input, the claim that
`computeWorkspaceId(p) = computeWorkspaceId(q)` iff
`realpath(p) = realpath(q)`. -/
theorem computeWorkspaceId_not_realpath_invariant :
    symlinkedRealpath "/link" = symlinkedRealpath "/real" ∧
    computeWorkspaceId "/" "/link" ≠ computeWorkspaceId "/" "/real" :=
  ⟨by decide, by decide⟩

/-- C1 amended: the workspace id is a function of the lexically resolved
absolute path (`path.resolve`), not of the symlink-resolved realpath:
`resolve(p) = resolve(q)` implies equal ids (the converse holds only up to
collisions of the truncated 64-bit hash), and for every input the id
matches `^[0-9a-f]\x7b16\x7d$`. -/
theorem computeWorkspaceId_resolve_invariant_and_format
    (processCwd p q : String)
    (h : resolvePath processCwd p = resolvePath processCwd q) :
    computeWorkspaceId processCwd p = computeWorkspaceId processCwd q ∧
    isValidWorkspaceId (computeWorkspaceId processCwd p) = true := by
  constructor
  · unfold computeWorkspaceId
    rw [h]
  · unfold computeWorkspaceId strTake isValidWorkspaceId
    rw [Bool.and_eq_true]
    constructor
    · rw [beq_iff_eq]
      show (List.take 16 _).length = 16
      rw [List.length_take, bytesToHexStr_length, blake2b256Bytes_length]
      omega
    · rw [List.all_eq_true]
      intro c hc
      have hmem := List.take_subset 16 _ hc
      have : c ∈ (blake2b256Bytes (utf8Bytes (resolvePath processCwd p))).flatMap
          hexPairOfByte := hmem
      rcases List.mem_flatMap.mp this with ⟨b, _, hcb⟩
      exact hexPairOfByte_hex b c hcb

/-- C1 witness: `/a` and `/a/` resolve to the same absolute path and get
the same well-formed id. -/
theorem computeWorkspaceId_resolve_invariant_witness :
    computeWorkspaceId "/" "/a" = computeWorkspaceId "/" "/a/" ∧
    isValidWorkspaceId (computeWorkspaceId "/" "/a") = true :=
  computeWorkspaceId_resolve_invariant_and_format "/" "/a" "/a/" (by decide)

/-! ## Strip-prefix helper lemmas (shared by the C5 and C9 theorems) -/

lemma rootWithSlash_of_no_slash {r : String} (h : endsWithSlash r = false) :
    rootWithSlash r = r ++ "/" := by
  simp [rootWithSlash, h]

lemma strip_not_under {p r : String}
    (hp : ( rootWithSlash r).data.isPrefixOf p.data = false) :
    stripWorkspacePrefix p r = p := by
  unfold stripWorkspacePrefix
  simp [hp]

lemma strip_under {r : String} (hr : endsWithSlash r = false) {p1 : String}
    {rest : List Char} (hp1 : p1.data = r.data ++ '/' :: rest) :
    ( stripWorkspacePrefix p1 r).data = rest := by
  unfold stripWorkspacePrefix
  rw [rootWithSlash_of_no_slash hr]
  have hdata : (r ++ "/").data = r.data ++ ['/'] := by
    rw [String.data_append]
  have hpre : (r ++ "/").data.isPrefixOf p1.data = true := by
    rw [List.isPrefixOf_iff_prefix, hdata, hp1]
    show r.data ++ ['/'] <+: r.data ++ (['/'] ++ rest)
    rw [List.prefix_append_right_inj]
    exact List.prefix_append ['/'] rest
  rw [if_pos hpre]
  show (p1.data.drop (r ++ "/").data.length) = rest
  rw [hdata, hp1]
  have hassoc : r.data ++ '/' :: rest = (r.data ++ ['/']) ++ rest := by simp
  rw [hassoc, List.drop_left]

lemma strip_self {r : String} (hr : endsWithSlash r = false) :
    stripWorkspacePrefix r r = r := by
  apply strip_not_under
  rw [rootWithSlash_of_no_slash hr]
  cases hc : (r ++ "/").data.isPrefixOf r.data with
  | false => rfl
  | true =>
    exfalso
    have hle := (List.isPrefixOf_iff_prefix.mp hc).length_le
    rw [String.data_append, List.length_append] at hle
    simp at hle

lemma strip_sibling {r : String} (hr : endsWithSlash r = false) :
    stripWorkspacePrefix (r ++ "2/file.js") r = r ++ "2/file.js" := by
  apply strip_not_under
  rw [rootWithSlash_of_no_slash hr]
  cases hc : (r ++ "/").data.isPrefixOf (r ++ "2/file.js").data with
  | false => rfl
  | true =>
    exfalso
    have hpre := List.isPrefixOf_iff_prefix.mp hc
    rw [String.data_append, String.data_append] at hpre
    have : ("/".data : List Char) <+: "2/file.js".data :=
      (List.prefix_append_right_inj r.data).mp hpre
    rcases List.cons_prefix_cons.mp this with ⟨h27, -⟩
    exact absurd h27 (by decide)

lemma strip_slash_self (r : String) :
    stripWorkspacePrefix (r ++ "/") (r ++ "/") = "" := by
  unfold stripWorkspacePrefix
  have hslash : endsWithSlash (r ++ "/") = true := by
    unfold endsWithSlash
    rw [String.data_append]
    show ((r.data ++ ['/']).getLast? == some '/') = true
    rw [List.getLast?_concat]
    rfl
  rw [rootWithSlash, if_pos hslash]
  have hself : (r ++ "/").data.isPrefixOf (r ++ "/").data = true :=
    List.isPrefixOf_iff_prefix.mpr (List.prefix_refl _)
  rw [if_pos hself]
  apply String.ext
  show (r ++ "/").data.drop (r ++ "/").data.length = ("" : String).data
  rw [List.drop_length]

/-! ## C9 theorems ( stripWorkspacePrefix exact semantics) -/

/-- C9 counterexample: for a workspace root that itself ends in a slash,
the path exactly equal to the root is not returned unchanged; it is
stripped to the empty string.  This refutes the claim sentence "a path
exactly equal to r is returned unchanged" at the concrete input
`p = r = "/ws/"`. -/
theorem stripWorkspacePrefix_equal_root_with_slash :
    stripWorkspacePrefix "/ws/" "/ws/" ≠ "/ws/" ∧
    stripWorkspacePrefix "/ws/" "/ws/" = "" :=
  ⟨by decide, by decide⟩

/-- C9 amended: `stripWorkspacePrefix p r` returns `p` unchanged unless `p`
begins with `r` followed by a `/` separator, where the code appends one
slash when `r` lacks a trailing slash and keeps an existing trailing slash
as is.  For a root without trailing slash: a sibling path `r ++ "2/file.js"`
is unchanged, the path exactly equal to `r` is unchanged, and a path
`r ++ "/" ++ rest` is stripped to `rest`; for a root with a trailing slash,
the path equal to the root is stripped to the empty string. -/
theorem stripWorkspacePrefix_exact_semantics
    (p r p1 : String) (rest : List Char)
    (hr : endsWithSlash r = false)
    (hp : ( rootWithSlash r).data.isPrefixOf p.data = false)
    (hp1 : p1.data = r.data ++ '/' :: rest) :
    stripWorkspacePrefix p r = p ∧
    stripWorkspacePrefix r r = r ∧
    stripWorkspacePrefix (r ++ "2/file.js") r = r ++ "2/file.js" ∧
    stripWorkspacePrefix (r ++ "/") (r ++ "/") = "" ∧
    ( stripWorkspacePrefix p1 r).data = rest :=
  ⟨strip_not_under hp, strip_self hr, strip_sibling hr, strip_slash_self r,
    strip_under hr hp1⟩

/-- C9 witness at root `/ws`: the sibling `/ws2/file.js` and the outside
path `/opt/x.js` are unchanged, the root itself is unchanged, and
`/ws/src/a.js` becomes `src/a.js`. -/
theorem stripWorkspacePrefix_exact_semantics_witness :
    stripWorkspacePrefix "/opt/x.js" "/ws" = "/opt/x.js" ∧
    stripWorkspacePrefix "/ws" "/ws" = "/ws" ∧
    stripWorkspacePrefix ("/ws" ++ "2/file.js") "/ws" = "/ws" ++ "2/file.js" ∧
    stripWorkspacePrefix ("/ws" ++ "/") ("/ws" ++ "/") = "" ∧
    ( stripWorkspacePrefix "/ws/src/a.js" "/ws").data = "src/a.js".data :=
  stripWorkspacePrefix_exact_semantics "/opt/x.js" "/ws" "/ws/src/a.js"
    "src/a.js".data (by decide) (by decide) (by decide)

/-! ## C5 theorem (tool output normalization and atomic write) -/

/-- C5: path normalization rewrites exactly the path-bearing fields of the
tool JSON outputs (`filePath` for eslint, `testResults[].name` for vitest):
a path under the workspace root (the root followed by a `/` separator)
becomes root-relative, a path not under it is unchanged, an absent field is
untouched; and the rewritten file is produced by writing the sibling
`<file>.tmp` and renaming it over the original. -/
theorem normalizeToolOutputs_strip_and_atomic
    (root p1 p2 fpath : String) (rest : List Char)
    (hr : endsWithSlash root = false)
    (hp1 : p1.data = root.data ++ '/' :: rest)
    (hp2 : ( rootWithSlash root).data.isPrefixOf p2.data = false) :
    normalizeEslintEntries [⟨some p1⟩, ⟨some p2⟩, ⟨none⟩] root
      = [⟨some ⟨rest⟩⟩, ⟨some p2⟩, ⟨none⟩] ∧
    normalizeVitestOutput ⟨some [⟨some p1⟩, ⟨some p2⟩]⟩ root
      = ⟨some [⟨some ⟨rest⟩⟩, ⟨some p2⟩]⟩ ∧
    atomicWriteFileOps fpath
      = [.writeFile (fpath ++ ".tmp"), .rename (fpath ++ ".tmp") fpath] := by
  have hstrip1 : stripWorkspacePrefix p1 root = ⟨rest⟩ :=
    String.ext (strip_under hr hp1)
  have hstrip2 : stripWorkspacePrefix p2 root = p2 := strip_not_under hp2
  have htruthy1 : jsTruthyStr (some p1) = true := by
    simp [jsTruthyStr, hp1]
  refine ⟨?_, ?_, rfl⟩
  · cases hE : p2.data.isEmpty <;>
      simp [normalizeEslintEntries, jsTruthyStr, hE, hstrip1, hstrip2, hp1]
  · cases hE : p2.data.isEmpty <;>
      simp [normalizeVitestOutput, jsTruthyStr, hE, hstrip1, hstrip2, hp1]

/-- C5 witness: root `/ws`, a test file under the root, an eslint file
outside it. -/
theorem normalizeToolOutputs_strip_and_atomic_witness :
    normalizeEslintEntries [⟨some "/ws/src/app.js"⟩, ⟨some "/opt/x.js"⟩, ⟨none⟩] "/ws"
      = [⟨some ⟨"src/app.js".data⟩⟩, ⟨some "/opt/x.js"⟩, ⟨none⟩] ∧
    normalizeVitestOutput ⟨some [⟨some "/ws/src/app.js"⟩, ⟨some "/opt/x.js"⟩]⟩ "/ws"
      = ⟨some [⟨some ⟨"src/app.js".data⟩⟩, ⟨some "/opt/x.js"⟩]⟩ ∧
    atomicWriteFileOps "/cache/artifacts/r1/eslint.json"
      = [.writeFile ("/cache/artifacts/r1/eslint.json" ++ ".tmp"),
         .rename ("/cache/artifacts/r1/eslint.json" ++ ".tmp") "/cache/artifacts/r1/eslint.json"] :=
  normalizeToolOutputs_strip_and_atomic "/ws" "/ws/src/app.js" "/opt/x.js"
    "/cache/artifacts/r1/eslint.json" "src/app.js".data (by decide) (by decide) (by decide)

/-! ## C7 theorem (package-manager detection) -/

/-- C7: for every workspace root (modelled by the list of file names it
contains, hence for every subset of the lockfile set), detection returns
the manager of the lockfile earliest in the priority order
bun > pnpm > yarn > npm, and npm when none is present (the `head?` of the
filtered priority list is the earliest present lockfile; `getD npm` is the
empty fallback). -/
theorem detectPackageManager_priority (rootFiles : List String) :
    detectPackageManager rootFiles
      = (((LOCKFILE_PRIORITY.filter fun e => rootFiles.contains e.1).head?.map
          Prod.snd).getD .npm) := by
  by_cases h1 : ("bun.lockb" : String) ∈ rootFiles <;>
  by_cases h2 : ("pnpm-lock.yaml" : String) ∈ rootFiles <;>
  by_cases h3 : ("yarn.lock" : String) ∈ rootFiles <;>
  by_cases h4 : ("package-lock.json" : String) ∈ rootFiles <;>
    simp [detectPackageManager, LOCKFILE_PRIORITY, List.find?, List.filter, h1, h2, h3, h4]

/-! ## C8 theorem (CLI exit code) -/

/-- C8: for every check result the CLI exit code is 0 iff
`new_test_failures = 0` and `new_findings = 0`, and 1 otherwise. -/
theorem computeExitCode_zero_iff (r : CliCheckResult) :
    (computeExitCode r = 0 ↔ (r.new_test_failures = 0 ∧ r.new_findings = 0)) ∧
    (computeExitCode r = 1 ↔ ¬(r.new_test_failures = 0 ∧ r.new_findings = 0)) := by
  rcases Nat.eq_zero_or_pos r.new_test_failures with ha | ha <;>
  rcases Nat.eq_zero_or_pos r.new_findings with hb | hb <;>
    simp [computeExitCode, ha, hb] <;> omega

/-! ## C2 theorems (artifact manifest) -/

/-- C2 counterexample: a run in which vitest was skipped (not a full run,
zero affected tests, hence no vitest output file was produced) and eslint
was skipped still ingests a manifest containing one TEST_FAILURE artifact
entry; `executeCheck` passes the vitest output path to `ingestArtifacts`
unconditionally and `buildArtifactList` places the TEST_FAILURE entry
unconditionally.  This refutes "contains a TEST_FAILURE entry iff tests ran
and produced an output file". -/
theorem checkManifest_testFailure_without_tests :
    vitestSkippedOf false 0 = true ∧
    (checkManifestArtifacts "/c" "r1" ⟨true, some .noConfig, none⟩).countP
      (fun a => a.kind == .TEST_FAILURE) = 1 ∧
    (checkManifestArtifacts "/c" "r1" ⟨true, some .noConfig, none⟩).countP
      (fun a => a.kind == .FINDING) = 0 := by decide

/-- C2 amended: the manifest always contains the TEST_FAILURE entry with id
`<run_id>-vitest` pointing at the vitest output path, whether or not tests
ran or produced output; it contains a FINDING entry iff the linter was not
skipped and produced an output path, and any FINDING entry has id
`<run_id>-eslint`. -/
theorem buildArtifactList_entries (runId vitestPath : String) (er : EslintResult) :
    ((buildArtifactList runId vitestPath er).any fun a =>
      a.kind == .TEST_FAILURE && a.artifactId == runId ++ "-vitest"
        && a.path == vitestPath) = true ∧
    (((buildArtifactList runId vitestPath er).any fun a => a.kind == .FINDING)
      = (!er.skipped && jsTruthyStr er.outputPath)) ∧
    ((buildArtifactList runId vitestPath er).all fun a =>
      a.kind == .TEST_FAILURE || a.artifactId == runId ++ "-eslint") = true := by
  cases hc : (!er.skipped && jsTruthyStr er.outputPath) <;>
    simp [buildArtifactList, hc]

/-! ## C3 theorems (POST /check while a check is executing) -/

/-- C3 counterexample: a POST /check received 500 ms after the previous
check started, while that check is still executing, is answered 429 (rate
limited), not 409: `handleCheck` consults the rate limiter before the
in-progress flag.  This refutes "every POST /check received while another
check is executing is answered 409". -/
theorem handleCheck_rate_limited_not_409 :
    (handleCheck 1000 1500 true (some ⟨"0123456789abcdef", "/ws"⟩)
      (fun _ => true) 200).status = 429 ∧
    (handleCheck 1000 1500 true (some ⟨"0123456789abcdef", "/ws"⟩)
      (fun _ => true) 200).status ≠ 409 := by
  exact ⟨by decide, by decide⟩

/-- C3 amended: every POST /check received while another check is executing
and outside the 1 s rate-limit window (measured from the previous check
start) is answered 409 with error body "check already in progress", before
the request body is even parsed and before `runCheck` is entered
(`runStarted = false`): no run id is generated and no filesystem effect
happens. -/
theorem handleCheck_409_when_not_rate_limited
    (lastCheckTime now : Int) (body : Option CheckRequestBody)
    (rootIsExistingDir : String → Bool) (checkStatus : Nat)
    (hrate : CHECK_RATE_LIMIT_MS ≤ now - lastCheckTime) :
    handleCheck lastCheckTime now true body rootIsExistingDir checkStatus
      = ⟨409, some "check already in progress", false⟩ := by
  have h1 : ¬ (now - lastCheckTime < CHECK_RATE_LIMIT_MS) := not_lt.mpr hrate
  unfold handleCheck
  rw [if_neg h1]
  simp

/-- C3 witness: a POST /check two seconds after the previous one, during an
executing check. -/
theorem handleCheck_409_witness :
    handleCheck 0 2000 true none (fun _ => false) 200
      = ⟨409, some "check already in progress", false⟩ :=
  handleCheck_409_when_not_rate_limited 0 2000 none (fun _ => false) 200 (by decide)

/-! ## C10 theorems (eslint skip classification) -/

/-- C10: the stderr substring patterns are evaluated before and
independently of the exit code and the output file: whenever stderr
contains one of the six patterns (the not-found set, "No ESLint
configuration", or "eslint.config"), the run is classified as skipped even
for exit code 0 and an existing output file, so its output is never
normalized and the manifest carries no FINDING entry. -/
theorem detectEslintSkipReason_stderr_over_exit
    (fsExists : String → Bool) (exitCode : Int)
    (stderr outputFile runId vitestPath : String)
    (hpat : (strIncludes stderr "command not found"
        || strIncludes stderr "npx: command not found"
        || strIncludes stderr "eslint: not found"
        || strIncludes stderr "eslint: command not found"
        || strIncludes stderr "No ESLint configuration"
        || strIncludes stderr "eslint.config") = true) :
    (detectEslintSkipReason fsExists exitCode stderr outputFile).isSome = true ∧
    (spawnEslintResult false fsExists exitCode stderr outputFile).skipped = true ∧
    eslintNormalizeInvoked (spawnEslintResult false fsExists exitCode stderr outputFile)
      = false ∧
    ((buildArtifactList runId vitestPath
        (spawnEslintResult false fsExists exitCode stderr outputFile)).all
      fun a => !(a.kind == .FINDING)) = true := by
  have hd : (detectEslintSkipReason fsExists exitCode stderr outputFile).isSome = true := by
    unfold detectEslintSkipReason
    split_ifs with h1 h2 h3 h4 <;> simp_all
  rcases Option.isSome_iff_exists.mp hd with ⟨rr, hrr⟩
  refine ⟨hd, ?_, ?_, ?_⟩ <;>
    simp [spawnEslintResult, hrr, eslintNormalizeInvoked, buildArtifactList, jsTruthyStr]

/-- C10 witness: exit code 0, the output file exists, stderr mentions
`eslint.config`; the run is nevertheless classified as skipped and yields
no FINDING artifact. -/
theorem detectEslintSkipReason_stderr_over_exit_witness :
    (detectEslintSkipReason (fun _ => true) 0 "Could not load eslint.config.js"
      "/c/artifacts/r1/eslint.json").isSome = true ∧
    (spawnEslintResult false (fun _ => true) 0 "Could not load eslint.config.js"
      "/c/artifacts/r1/eslint.json").skipped = true ∧
    eslintNormalizeInvoked (spawnEslintResult false (fun _ => true) 0
      "Could not load eslint.config.js" "/c/artifacts/r1/eslint.json") = false ∧
    ((buildArtifactList "r1" "/c/artifacts/r1/vitest.json"
        (spawnEslintResult false (fun _ => true) 0 "Could not load eslint.config.js"
          "/c/artifacts/r1/eslint.json")).all
      fun a => !(a.kind == .FINDING)) = true :=
  detectEslintSkipReason_stderr_over_exit (fun _ => true) 0
    "Could not load eslint.config.js" "/c/artifacts/r1/eslint.json"
    "r1" "/c/artifacts/r1/vitest.json" (by decide)

/-! ## C6 theorems (stale lock recovery) -/

/-- C6: when acquisition hits an existing `engine.lock/` directory, the pid
file inside is read: a dead PID (`alive pid = false`) makes the lock stale,
it is removed, and acquisition is retried exactly once (two `attemptLock`
calls), the retry `mkdir` succeeding and installing our own PID; a live PID
leaves the lock untouched and the acquisition returns `false` after the
single attempt. -/
theorem tryAcquireLock_stale_recovery
    (alive : Nat → Bool) (myPid : Nat) (st : LockState) (s : String) (pid : Nat) (b : Bool)
    (hdir : st.lockDirExists = true)
    (hpidf : st.pidFileContent = some s)
    (hparse : parsePidInt s = some pid)
    (halive : alive pid = b) :
    tryAcquireLock alive myPid st
      = (if b then (st, false) else (⟨true, some (toString myPid)⟩, true)) ∧
    tryAcquireLockAttempts alive myPid st = (if b then 1 else 2) := by
  cases st with
  | mk d pf =>
    simp only at hdir hpidf
    subst hdir hpidf
    cases b <;>
      simp [tryAcquireLock, tryAcquireLockAttempts, attemptLock, cleanStaleLock,
        hparse, halive]

/-- C6 witness: lock directory held by PID 123; when 123 is dead the lock
is recovered and acquired on the single retry, when 123 is alive the
acquisition returns without the lock after one attempt. -/
theorem tryAcquireLock_stale_recovery_witness :
    (tryAcquireLock (fun _ => false) 42 ⟨true, some "123"⟩
        = (if false then ((⟨true, some "123"⟩ : LockState), false)
           else (⟨true, some (toString 42)⟩, true)) ∧
      tryAcquireLockAttempts (fun _ => false) 42 ⟨true, some "123"⟩
        = (if false then 1 else 2)) ∧
    (tryAcquireLock (fun _ => true) 42 ⟨true, some "123"⟩
        = (if true then ((⟨true, some "123"⟩ : LockState), false)
           else (⟨true, some (toString 42)⟩, true)) ∧
      tryAcquireLockAttempts (fun _ => true) 42 ⟨true, some "123"⟩
        = (if true then 1 else 2)) :=
  ⟨tryAcquireLock_stale_recovery (fun _ => false) 42 ⟨true, some "123"⟩ "123" 123 false
      rfl rfl (by decide) rfl,
   tryAcquireLock_stale_recovery (fun _ => true) 42 ⟨true, some "123"⟩ "123" 123 true
      rfl rfl (by decide) rfl⟩

/-! ## C4 theorems (frame of destructive operations) -/

/-- C4 counterexample: engine shutdown cleanup removes `<cache>/rust.port`,
which is not under `<cache>/artifacts/` and hence outside
`<cache>/artifacts/<run_id>/` for every run id.  This refutes "no file
outside `<cache>/artifacts/<run_id>/` is ever removed". -/
theorem cleanup_removes_outside_artifacts :
    cleanupRemovals "/c" true = ["/c/rust.port"] ∧
    underRunArtifacts "/c" "/c/rust.port" = false := by
  exact ⟨by decide, by decide⟩

lemma pathWithin_append (c : String) (rest : List Char) (s : String)
    (hs : s.data = '/' :: rest) : pathWithin c (c ++ s) = true := by
  unfold pathWithin
  apply List.isPrefixOf_iff_prefix.mpr
  rw [String.data_append, String.data_append, hs]
  show c.data ++ ['/'] <+: c.data ++ (['/'] ++ rest)
  rw [List.prefix_append_right_inj]
  exact List.prefix_append ['/'] rest

lemma all_within_cleanup (c : String) (pf : Bool) :
    ((cleanupRemovals c pf).all fun p => pathWithin c p) = true := by
  have h1 := pathWithin_append c "rust.port".data "/rust.port" (by decide)
  cases pf <;> simp [cleanupRemovals, h1]

lemma all_within_engineStartup (c : String) (se : Bool) :
    ((engineStartupRemovals c se).all fun p => pathWithin c p) = true := by
  have h2 := pathWithin_append c "zax.sock".data "/zax.sock" (by decide)
  cases se <;> simp [engineStartupRemovals, h2]

lemma all_within_ensureEngine (c : String) (se co : Bool) :
    ((ensureEngineRemovals c se co).all fun p => pathWithin c p) = true := by
  have h2 := pathWithin_append c "zax.sock".data "/zax.sock" (by decide)
  cases se <;> cases co <;> simp [ensureEngineRemovals, h2]

lemma all_within_releaseLock (c : String) :
    ((releaseLockRemovals c).all fun p => pathWithin c p) = true := by
  have h3 := pathWithin_append c "engine.lock/pid".data "/engine.lock/pid" (by decide)
  have h4 := pathWithin_append c "engine.lock".data "/engine.lock" (by decide)
  simp [releaseLockRemovals, h3, h4]

lemma all_within_cleanStaleLock (c : String) (alive : Nat → Bool) (st : LockState) :
    ((cleanStaleLockRemovals c alive st).all fun p => pathWithin c p) = true := by
  have h3 := pathWithin_append c "engine.lock/pid".data "/engine.lock/pid" (by decide)
  have h4 := pathWithin_append c "engine.lock".data "/engine.lock" (by decide)
  cases st with
  | mk d pf =>
    cases pf with
    | none => cases d <;> simp [cleanStaleLockRemovals, h4]
    | some s =>
      cases hp : parsePidInt s with
      | none => simp [cleanStaleLockRemovals, hp]
      | some pid =>
        cases ha : alive pid <;> simp [cleanStaleLockRemovals, hp, ha, h3, h4]

/-- C4 amended: every file any operation of the system ever removes lies
inside the per-workspace cache directory (the removals are exactly the
control files `rust.port`, `zax.sock`, and `engine.lock/pid` together with
the `engine.lock` directory, never anything outside `<cache>`). -/
theorem systemRemovals_within_cacheDir (cacheDir : String)
    (portFileExists sockExistsStartup sockExistsCli connectOk : Bool)
    (alive : Nat → Bool) (st : LockState) :
    ((systemRemovals cacheDir portFileExists sockExistsStartup sockExistsCli connectOk
        alive st).all
      fun p => pathWithin cacheDir p) = true := by
  simp [systemRemovals, List.all_append,
    all_within_cleanup, all_within_engineStartup, all_within_ensureEngine,
    all_within_releaseLock, all_within_cleanStaleLock]

end Zax

namespace Zax

/-! ## Sanity checks of the embedding against reference values

The BLAKE2b-256 test vector for "abc" and the digests of the two
counterexample paths match the reference implementation; the behavioural
models agree with the sources on concrete inputs. -/

lemma blake2b256_abc_vector :
    bytesToHexStr (blake2b256Bytes (utf8Bytes "abc")) =
      "bddd813c634239723171ef3fee98579b94964e3bb1cb3e427262c8c068d52319" := by decide

lemma computeWorkspaceId_link_value :
    computeWorkspaceId "/" "/link" = "bb15371bc92a0e5d" := by decide

lemma computeWorkspaceId_real_value :
    computeWorkspaceId "/" "/real" = "a896bf3b5b2478ad" := by decide

lemma resolvePath_normalizes :
    resolvePath "/home/u" "a/../b/./c/" = "/home/u/b/c" ∧ resolvePath "/" "/" = "/" := by
  exact ⟨by decide, by decide⟩

lemma strip_examples :
    stripWorkspacePrefix "/ws/src/a.ts" "/ws" = "src/a.ts" ∧
    stripWorkspacePrefix "/ws2/f.js" "/ws" = "/ws2/f.js" ∧
    stripWorkspacePrefix "/ws" "/ws" = "/ws" := by
  exact ⟨by decide, by decide, by decide⟩

lemma detectPackageManager_examples :
    detectPackageManager ["yarn.lock", "package-lock.json"] = .yarn ∧
    detectPackageManager [] = .npm := by
  exact ⟨by decide, by decide⟩

lemma strIncludes_example :
    strIncludes "error in eslint.config.js" "eslint.config" = true := by decide

end Zax
